import Mathlib

/-!
# The ECS service client constructor (`agent/ecs_client/model/ecs/service.go`)

A shallow embedding of `New`, `newClient` and `ECS.newRequest`, and of the
SDK types they touch, followed by the properties of the construction.

Modelling conventions:

* a Go pointer that the code dereferences is an `Option` (`none` is `nil`);
* the package-level variables `initClient` and `initRequest` are explicit
  arguments of the function that reads them (`none` is the unset hook);
* a hook receives a pointer and may mutate the pointee: it is a function from
  the value before the call to the value after it;
* every call to a collaborator handed in from outside (the configuration
  provider, the two hooks, the embedded client's `NewRequest`) is recorded, in
  program order, in a call log returned next to the result;
* the SDK constructor `client.New` is not among the sources. `newClientWith`
  and `NewWith` take it as an argument that returns a pointer, about which
  nothing is assumed; `newClient` and `New` are the same code at the
  constructor `client.New` that stores what it is given
  (`newClientWith_storing`, `NewWith_storing`).
-/

namespace aws

/-- The SDK's `aws.Config`: the shared settings the spec names (credentials,
endpoint, region) and further optional settings. Every field is a pointer in
the SDK, so every field is optional. `service.go` never inspects the value. -/
structure Config where
  Credentials : Option String
  Endpoint : Option String
  Region : Option String
  DisableSSL : Option Bool
  MaxRetries : Option Int
  LogLevel : Option Nat
  deriving DecidableEq, Repr

end aws

namespace metadata

/-- The SDK's `metadata.ClientInfo`, with the six fields `newClient` sets. -/
structure ClientInfo where
  ServiceName : String
  APIVersion : String
  Endpoint : String
  SigningRegion : String
  JSONVersion : String
  TargetPrefix : String
  deriving DecidableEq, Repr

end metadata

namespace request

/-- A pipeline callback `func(*request.Request)`, identified by the name of the
function it denotes. -/
structure Handler where
  Name : String
  deriving DecidableEq, Repr

/-- The SDK's `request.HandlerList`: an ordered list of callbacks. -/
structure HandlerList where
  list : List Handler
  deriving DecidableEq, Repr

/-- `HandlerList.PushBack`: the callback becomes the last element. -/
def HandlerList.PushBack (l : HandlerList) (f : Handler) : HandlerList :=
  { list := l.list ++ [f] }

/-- `HandlerList.Len`: the number of callbacks of a list. -/
def HandlerList.Len (l : HandlerList) : Nat :=
  l.list.length

/-- The SDK's `request.Handlers`: one callback list per pipeline stage. The ten
named stages are those of the SDK; `Further` stands for any further stage list
the struct may carry, none of which `service.go` names. -/
structure Handlers where
  Validate : HandlerList
  Build : HandlerList
  Sign : HandlerList
  Send : HandlerList
  ValidateResponse : HandlerList
  Unmarshal : HandlerList
  UnmarshalMeta : HandlerList
  UnmarshalError : HandlerList
  Retry : HandlerList
  AfterRetry : HandlerList
  Further : List HandlerList
  deriving DecidableEq, Repr

/-- The total number of callbacks over all the lists of a handler set. -/
def Handlers.count (h : Handlers) : Nat :=
  h.Validate.Len + h.Build.Len + h.Sign.Len + h.Send.Len + h.ValidateResponse.Len
    + h.Unmarshal.Len + h.UnmarshalMeta.Len + h.UnmarshalError.Len + h.Retry.Len
    + h.AfterRetry.Len + (h.Further.map HandlerList.Len).sum

end request

namespace v4

/-- The SDK's request signer `v4.Sign`. -/
def Sign : request.Handler := { Name := "v4.Sign" }

end v4

namespace jsonrpc

/-- The SDK's `jsonrpc.Build`. -/
def Build : request.Handler := { Name := "jsonrpc.Build" }

/-- The SDK's `jsonrpc.Unmarshal`. -/
def Unmarshal : request.Handler := { Name := "jsonrpc.Unmarshal" }

/-- The SDK's `jsonrpc.UnmarshalMeta`. -/
def UnmarshalMeta : request.Handler := { Name := "jsonrpc.UnmarshalMeta" }

/-- The SDK's `jsonrpc.UnmarshalError`. -/
def UnmarshalError : request.Handler := { Name := "jsonrpc.UnmarshalError" }

end jsonrpc

namespace client

set_option linter.dupNamespace false in
/-- The SDK's `client.Config`, the answer of a configuration provider. `Config`
is a pointer `*aws.Config` there. -/
structure Config where
  Config : Option aws.Config
  Handlers : request.Handlers
  Endpoint : String
  SigningRegion : String
  deriving DecidableEq, Repr

/-- The SDK's interface `client.ConfigProvider`: its one method
`ClientConfig(serviceName string, cfgs ...*aws.Config) client.Config`. The
variadic options are pointers, so each may be `nil`. -/
structure ConfigProvider where
  ClientConfig : String → List (Option aws.Config) → Config

/-- The SDK's generic `client.Client`: configuration, service metadata and
handler chain. -/
structure Client where
  Config : aws.Config
  ClientInfo : metadata.ClientInfo
  Handlers : request.Handlers
  deriving DecidableEq, Repr

/-- Modelled from the spec: `client.New` belongs to the SDK and is not part of
the repository's sources. It "instantiates a generic request-handling client
with service metadata": the new client stores the configuration, the
`ClientInfo` and the handler set it is given. -/
def New (cfg : aws.Config) (info : metadata.ClientInfo) (handlers : request.Handlers) : Client :=
  { Config := cfg, ClientInfo := info, Handlers := handlers }

end client

namespace ecs

/-- The service client `ECS`: a handle that embeds `*client.Client`. -/
structure ECS where
  Client : client.Client
  deriving DecidableEq, Repr

/-- `const ServiceName = "ecs"`. -/
def ServiceName : String := "ecs"

/-- A call that construction makes to a collaborator handed in from outside:
the provider's `ClientConfig` with its arguments, or the `initClient` hook with
the client it is handed (as it is at the moment of the call). -/
inductive Call where
  | ClientConfig (serviceName : String) (cfgs : List (Option aws.Config))
  | initClient (c : client.Client)
  deriving DecidableEq, Repr

/-- Whether a logged call is a query of the configuration provider. -/
def Call.isClientConfig : Call → Bool
  | Call.ClientConfig _ _ => true
  | Call.initClient _ => false

/-- Whether a logged call is a run of the `initClient` hook. -/
def Call.isInitClient : Call → Bool
  | Call.ClientConfig _ _ => false
  | Call.initClient _ => true

/-- `newClient`: builds the client through `client.New`, pushes the five
service callbacks, runs the `initClient` hook when it is set, and returns the
handle. The second component is the log of the hook calls made. -/
def newClient (initClient : Option (client.Client → client.Client)) (cfg : aws.Config)
    (handlers : request.Handlers) (endpoint signingRegion : String) : ECS × List Call :=
  let svc : ECS :=
    { Client := client.New cfg
        { ServiceName := ServiceName
          SigningRegion := signingRegion
          Endpoint := endpoint
          APIVersion := "2014-11-13"
          JSONVersion := "1.1"
          TargetPrefix := "AmazonEC2ContainerServiceV20141113" }
        handlers }
  let svc : ECS := { svc with Client.Handlers.Sign := svc.Client.Handlers.Sign.PushBack v4.Sign }
  let svc : ECS := { svc with Client.Handlers.Build := svc.Client.Handlers.Build.PushBack jsonrpc.Build }
  let svc : ECS :=
    { svc with Client.Handlers.Unmarshal := svc.Client.Handlers.Unmarshal.PushBack jsonrpc.Unmarshal }
  let svc : ECS :=
    { svc with
      Client.Handlers.UnmarshalMeta := svc.Client.Handlers.UnmarshalMeta.PushBack jsonrpc.UnmarshalMeta }
  let svc : ECS :=
    { svc with
      Client.Handlers.UnmarshalError :=
        svc.Client.Handlers.UnmarshalError.PushBack jsonrpc.UnmarshalError }
  match initClient with
  | some hook => ({ Client := hook svc.Client }, [Call.initClient svc.Client])
  | none => (svc, [])

/-- `New`: asks the provider for the configuration of service `ServiceName`,
dereferences the `Config` pointer of the answer and hands the four parts to
`newClient`. A `nil` pointer aborts the call before `newClient` runs: the
result is then `none`. The second component is the call log. -/
def New (initClient : Option (client.Client → client.Client)) (p : client.ConfigProvider)
    (cfgs : List (Option aws.Config)) : Option ECS × List Call :=
  let c := p.ClientConfig ServiceName cfgs
  match c.Config with
  | none => (none, [Call.ClientConfig ServiceName cfgs])
  | some cfg =>
    let r := newClient initClient cfg c.Handlers c.Endpoint c.SigningRegion
    (some r.1, Call.ClientConfig ServiceName cfgs :: r.2)

/-- A call that `newRequest` makes: the embedded client's `NewRequest` with its
receiver and arguments, or the `initRequest` hook with the request it is
handed. -/
inductive RequestCall (Operation Value Request : Type) where
  | NewRequest (c : client.Client) (op : Operation) (params data : Value)
  | initRequest (req : Request)

/-- `ECS.newRequest`: builds the request through the embedded client's
`NewRequest`, runs the `initRequest` hook on it when the hook is set, and
returns it. The SDK's `request.Operation`, `interface{}` and `request.Request`
are the type parameters, and the SDK method `Client.NewRequest` is the argument
`NewRequest`. The second component is the call log. -/
def ECS.newRequest {Operation Value Request : Type} (initRequest : Option (Request → Request))
    (NewRequest : client.Client → Operation → Value → Value → Request) (c : ECS)
    (op : Operation) (params data : Value) : Request × List (RequestCall Operation Value Request) :=
  let req := NewRequest c.Client op params data
  match initRequest with
  | some hook => (hook req, [RequestCall.NewRequest c.Client op params data, RequestCall.initRequest req])
  | none => (req, [RequestCall.NewRequest c.Client op params data])

/-- The handler set with no callback in any stage. -/
def emptyHandlers : request.Handlers :=
  { Validate := ⟨[]⟩, Build := ⟨[]⟩, Sign := ⟨[]⟩, Send := ⟨[]⟩, ValidateResponse := ⟨[]⟩,
    Unmarshal := ⟨[]⟩, UnmarshalMeta := ⟨[]⟩, UnmarshalError := ⟨[]⟩, Retry := ⟨[]⟩,
    AfterRetry := ⟨[]⟩, Further := [] }

/-- The configuration with every setting left unset. -/
def emptyConfig : aws.Config :=
  { Credentials := none, Endpoint := none, Region := none, DisableSSL := none,
    MaxRetries := none, LogLevel := none }

end ecs

namespace ecs

/-- A provider whose answer carries a `nil` configuration pointer (the zero
value of the SDK's `client.Config`). -/
def nilConfigProvider : client.ConfigProvider :=
  { ClientConfig := fun _ _ =>
      { Config := none, Handlers := emptyHandlers, Endpoint := "", SigningRegion := "" } }

/-- A provider that resolves every query to the empty configuration, the empty
handler set, and a fixed endpoint and signing region. -/
def fixedProvider : client.ConfigProvider :=
  { ClientConfig := fun _ _ =>
      { Config := some emptyConfig, Handlers := emptyHandlers,
        Endpoint := "https://ecs.us-west-2.amazonaws.com", SigningRegion := "us-west-2" } }

/-- An `initClient` hook that overwrites the endpoint and signing region of the
client it is handed. -/
def rewriteEndpointHook (c : client.Client) : client.Client :=
  { c with ClientInfo.Endpoint := "http://localhost:8080", ClientInfo.SigningRegion := "local" }

/-- An `initClient` hook that pushes one more callback onto the `Send` list. -/
def pushSendHook (c : client.Client) : client.Client :=
  { c with Handlers.Send := c.Handlers.Send.PushBack { Name := "custom.Send" } }

/-- `newClient`, with the SDK constructor `client.New` as the argument
`clientNew`, which returns a pointer `*client.Client`. The handle is allocated
around that pointer; the first `svc.Handlers` (the `PushBack` onto `Sign`)
dereferences it, so a `nil` pointer aborts there, before anything is registered
or called: the result is then `none`. -/
def newClientWith
    (clientNew : aws.Config → metadata.ClientInfo → request.Handlers → Option client.Client)
    (initClient : Option (client.Client → client.Client)) (cfg : aws.Config)
    (handlers : request.Handlers) (endpoint signingRegion : String) : Option ECS × List Call :=
  match clientNew cfg
      { ServiceName := ServiceName
        SigningRegion := signingRegion
        Endpoint := endpoint
        APIVersion := "2014-11-13"
        JSONVersion := "1.1"
        TargetPrefix := "AmazonEC2ContainerServiceV20141113" }
      handlers with
  | none => (none, [])
  | some built =>
    let svc : ECS := { Client := built }
    let svc : ECS := { svc with Client.Handlers.Sign := svc.Client.Handlers.Sign.PushBack v4.Sign }
    let svc : ECS := { svc with Client.Handlers.Build := svc.Client.Handlers.Build.PushBack jsonrpc.Build }
    let svc : ECS :=
      { svc with Client.Handlers.Unmarshal := svc.Client.Handlers.Unmarshal.PushBack jsonrpc.Unmarshal }
    let svc : ECS :=
      { svc with
        Client.Handlers.UnmarshalMeta :=
          svc.Client.Handlers.UnmarshalMeta.PushBack jsonrpc.UnmarshalMeta }
    let svc : ECS :=
      { svc with
        Client.Handlers.UnmarshalError :=
          svc.Client.Handlers.UnmarshalError.PushBack jsonrpc.UnmarshalError }
    match initClient with
    | some hook => (some { Client := hook svc.Client }, [Call.initClient svc.Client])
    | none => (some svc, [])

/-- `New`, with the SDK constructor `client.New` as the argument `clientNew`:
the provider is queried, the `Config` pointer of its answer is dereferenced
(`nil` aborts, before `newClient` runs), and `newClient` does the rest. -/
def NewWith
    (clientNew : aws.Config → metadata.ClientInfo → request.Handlers → Option client.Client)
    (initClient : Option (client.Client → client.Client)) (p : client.ConfigProvider)
    (cfgs : List (Option aws.Config)) : Option ECS × List Call :=
  let c := p.ClientConfig ServiceName cfgs
  match c.Config with
  | none => (none, [Call.ClientConfig ServiceName cfgs])
  | some cfg =>
    let r := newClientWith clientNew initClient cfg c.Handlers c.Endpoint c.SigningRegion
    (r.1, Call.ClientConfig ServiceName cfgs :: r.2)

/-- A constructor that stores what it is given and, when the configuration sets
a log level, also registers a request logger in front of the `Send` list and a
response logger behind it. It never returns `nil`. -/
def loggingClientNew (cfg : aws.Config) (info : metadata.ClientInfo)
    (handlers : request.Handlers) : Option client.Client :=
  match cfg.LogLevel with
  | none => some { Config := cfg, ClientInfo := info, Handlers := handlers }
  | some _ =>
    some
      { Config := cfg
        ClientInfo := info
        Handlers :=
          { handlers with
            Send :=
              { list :=
                  { Name := "client.logRequest" } :: handlers.Send.list
                    ++ [{ Name := "client.logResponse" }] } } }

/-- A configuration with credentials, a region, a retry bound and a log level. -/
def debugConfig : aws.Config :=
  { Credentials := some "AKIDEXAMPLE", Endpoint := none, Region := some "us-west-2",
    DisableSSL := some false, MaxRetries := some 3, LogLevel := some 1 }

/-- A handler set with callbacks in several stages, `Sign` and a further stage
among them. -/
def coreHandlers : request.Handlers :=
  { emptyHandlers with
    Validate := { list := [{ Name := "corehandlers.ValidateEndpointHandler" }] }
    Build := { list := [{ Name := "corehandlers.SDKVersionUserAgentHandler" }] }
    Sign := { list := [{ Name := "corehandlers.BuildContentLengthHandler" }] }
    Send := { list := [{ Name := "corehandlers.SendHandler" }] }
    AfterRetry := { list := [{ Name := "corehandlers.AfterRetryHandler" }] }
    Further := [{ list := [{ Name := "custom.Complete" }] }] }

/-- A provider that answers every query with `debugConfig`, `coreHandlers` and
a fixed endpoint and signing region. -/
def sessionProvider : client.ConfigProvider :=
  { ClientConfig := fun _ _ =>
      { Config := some debugConfig, Handlers := coreHandlers,
        Endpoint := "https://ecs.eu-west-1.amazonaws.com", SigningRegion := "eu-west-1" } }

/-- The two embeddings of `newClient` agree: at the constructor that stores what
it is given, `newClientWith` returns the handle and the log of `newClient`. -/
theorem newClientWith_storing (initClient : Option (client.Client → client.Client))
    (cfg : aws.Config) (handlers : request.Handlers) (endpoint signingRegion : String) :
    newClientWith (fun c i h => some (client.New c i h)) initClient cfg handlers endpoint
        signingRegion
      = (some (newClient initClient cfg handlers endpoint signingRegion).1,
          (newClient initClient cfg handlers endpoint signingRegion).2) := by
  cases initClient <;> simp [newClientWith, newClient]

/-- The two embeddings of `New` agree at the constructor that stores what it is
given. -/
theorem NewWith_storing (initClient : Option (client.Client → client.Client))
    (p : client.ConfigProvider) (cfgs : List (Option aws.Config)) :
    NewWith (fun c i h => some (client.New c i h)) initClient p cfgs = New initClient p cfgs := by
  simp only [NewWith, New, newClientWith_storing]

/-- C1: with the `initClient` hook unset, the client returned by `newClient`
carries metadata with ServiceName "ecs", the given signing region, the given
endpoint, APIVersion "2014-11-13", JSONVersion "1.1" and TargetPrefix
"AmazonEC2ContainerServiceV20141113". -/
theorem newClient_metadata (cfg : aws.Config) (handlers : request.Handlers)
    (endpoint signingRegion : String) :
    let info := (newClient none cfg handlers endpoint signingRegion).1.Client.ClientInfo
    info.ServiceName = "ecs" ∧ info.SigningRegion = signingRegion ∧ info.Endpoint = endpoint
      ∧ info.APIVersion = "2014-11-13" ∧ info.JSONVersion = "1.1"
      ∧ info.TargetPrefix = "AmazonEC2ContainerServiceV20141113" := by
  simp [newClient, client.New, ServiceName]

/-- C2: with the `initClient` hook unset, each of the lists Sign, Build,
Unmarshal, UnmarshalMeta and UnmarshalError of the returned client is the input
list followed by exactly one new last element, the stage's service callback; so
the first elements are the input list in its order, and the callback is last. -/
theorem newClient_appends_callbacks (cfg : aws.Config) (handlers : request.Handlers)
    (endpoint signingRegion : String) :
    let h := (newClient none cfg handlers endpoint signingRegion).1.Client.Handlers
    (h.Sign.list = handlers.Sign.list ++ [v4.Sign]
      ∧ h.Build.list = handlers.Build.list ++ [jsonrpc.Build]
      ∧ h.Unmarshal.list = handlers.Unmarshal.list ++ [jsonrpc.Unmarshal]
      ∧ h.UnmarshalMeta.list = handlers.UnmarshalMeta.list ++ [jsonrpc.UnmarshalMeta]
      ∧ h.UnmarshalError.list = handlers.UnmarshalError.list ++ [jsonrpc.UnmarshalError])
    ∧ (h.Sign.list.take handlers.Sign.list.length = handlers.Sign.list
      ∧ h.Build.list.take handlers.Build.list.length = handlers.Build.list
      ∧ h.Unmarshal.list.take handlers.Unmarshal.list.length = handlers.Unmarshal.list
      ∧ h.UnmarshalMeta.list.take handlers.UnmarshalMeta.list.length = handlers.UnmarshalMeta.list
      ∧ h.UnmarshalError.list.take handlers.UnmarshalError.list.length
          = handlers.UnmarshalError.list)
    ∧ (h.Sign.list.getLast? = some v4.Sign
      ∧ h.Build.list.getLast? = some jsonrpc.Build
      ∧ h.Unmarshal.list.getLast? = some jsonrpc.Unmarshal
      ∧ h.UnmarshalMeta.list.getLast? = some jsonrpc.UnmarshalMeta
      ∧ h.UnmarshalError.list.getLast? = some jsonrpc.UnmarshalError) := by
  simp [newClient, client.New, request.HandlerList.PushBack]

/-- C3, as stated, fails: on the empty handler set with the hook unset the
returned chain holds five callbacks, not four; a set hook may register more
(here a sixth); and a constructor that registers callbacks of its own (here two
loggers) moves the count away from the input's as well. -/
theorem newClient_count_not_four :
    (newClient none emptyConfig emptyHandlers "" "").1.Client.Handlers.count = 5
      ∧ (newClient none emptyConfig emptyHandlers "" "").1.Client.Handlers.count
          ≠ emptyHandlers.count + 4
      ∧ (newClient (some pushSendHook) emptyConfig emptyHandlers "" "").1.Client.Handlers.count
          = 6
      ∧ (newClientWith loggingClientNew none debugConfig emptyHandlers "" "").1.map
            (fun svc => svc.Client.Handlers.count)
          = some 7 := by
  decide

/-- C3, amended: whatever `client.New` does, with the `initClient` hook unset
the total number of handlers over all the lists of the returned client's chain
exceeds the total over the chain of the client that `client.New` built by
exactly five (and `newClient` returns a client exactly when `client.New` does). -/
theorem newClientWith_count_five
    (clientNew : aws.Config → metadata.ClientInfo → request.Handlers → Option client.Client)
    (cfg : aws.Config) (handlers : request.Handlers) (endpoint signingRegion : String) :
    (newClientWith clientNew none cfg handlers endpoint signingRegion).1.map
        (fun svc => svc.Client.Handlers.count)
      = (clientNew cfg
          { ServiceName := "ecs", SigningRegion := signingRegion, Endpoint := endpoint,
            APIVersion := "2014-11-13", JSONVersion := "1.1",
            TargetPrefix := "AmazonEC2ContainerServiceV20141113" }
          handlers).map (fun built => built.Handlers.count + 5) := by
  simp only [newClientWith, ServiceName]
  cases clientNew cfg _ handlers with
  | none => rfl
  | some built =>
    simp only [Option.map_some', request.Handlers.count, request.HandlerList.Len,
      request.HandlerList.PushBack, List.length_append, List.length_singleton, Option.some.injEq]
    omega

/-- C4, as stated, fails in its last part: with an `initClient` hook that
overwrites them, the endpoint and signing region of the client `New` returns are
not the ones the provider resolved. -/
theorem New_endpoint_not_resolved :
    (fixedProvider.ClientConfig ServiceName []).Endpoint = "https://ecs.us-west-2.amazonaws.com"
      ∧ (fixedProvider.ClientConfig ServiceName []).SigningRegion = "us-west-2"
      ∧ (New (some rewriteEndpointHook) fixedProvider []).1.map
            (fun svc => (svc.Client.ClientInfo.Endpoint, svc.Client.ClientInfo.SigningRegion))
          = some ("http://localhost:8080", "local")
      ∧ (New (some rewriteEndpointHook) fixedProvider []).1.map
            (fun svc => (svc.Client.ClientInfo.Endpoint, svc.Client.ClientInfo.SigningRegion))
          ≠ some ((fixedProvider.ClientConfig ServiceName []).Endpoint,
              (fixedProvider.ClientConfig ServiceName []).SigningRegion) := by
  decide

/-- C4, amended: for every provider, every list of override options and every
state of the `initClient` hook, `New` queries the provider exactly once, first,
with service name "ecs" and the same options in the same order, makes no other
call than those of `newClient`, and returns exactly
`newClient(*c.Config, c.Handlers, c.Endpoint, c.SigningRegion)` for the answer
`c` of that query; with the hook unset, the returned client's Endpoint and
SigningRegion are the ones the provider resolved. -/
theorem New_delegates (initClient : Option (client.Client → client.Client))
    (p : client.ConfigProvider) (cfgs : List (Option aws.Config)) :
    let c := p.ClientConfig "ecs" cfgs
    (New initClient p cfgs).2.head? = some (Call.ClientConfig "ecs" cfgs)
      ∧ (New initClient p cfgs).2.countP Call.isClientConfig = 1
      ∧ (New initClient p cfgs).2.tail
          = (c.Config.map
              (fun cfg => (newClient initClient cfg c.Handlers c.Endpoint c.SigningRegion).2)).getD []
      ∧ (New initClient p cfgs).1
          = c.Config.map
              (fun cfg => (newClient initClient cfg c.Handlers c.Endpoint c.SigningRegion).1)
      ∧ (New none p cfgs).1.map
            (fun svc => (svc.Client.ClientInfo.Endpoint, svc.Client.ClientInfo.SigningRegion))
          = c.Config.map (fun _ => (c.Endpoint, c.SigningRegion)) := by
  simp only [New, ServiceName]
  generalize p.ClientConfig "ecs" cfgs = c
  obtain ⟨_ | cfg, handlers, endpoint, signingRegion⟩ := c
  · simp [Call.isClientConfig]
  · cases initClient <;> simp [Call.isClientConfig, newClient, client.New]

/-- C5, as stated, fails: a provider whose answer carries a `nil` configuration
pointer makes `New` abort at the dereference, so `New` does not return a handle
for every provider. -/
theorem New_aborts_on_nil_config :
    (New none nilConfigProvider []).1 = none
      ∧ (NewWith loggingClientNew none nilConfigProvider []).1 = none
      ∧ ¬ ∀ (p : client.ConfigProvider) (cfgs : List (Option aws.Config)),
          ∃ svc, (New none p cfgs).1 = some svc := by
  refine ⟨by decide, by decide, fun h => ?_⟩
  obtain ⟨svc, hsvc⟩ := h nilConfigProvider []
  simp [New, nilConfigProvider] at hsvc

/-- C5, amended: when `client.New` always returns a client, then for every
provider and override options for which the answer of the provider carries a
non-nil configuration pointer `New` returns a client handle, and for every
configuration, handler set, endpoint and signing region `newClient` returns a
client handle, whether the `initClient` hook is set or not; the handle embeds
the client `client.New` built, with the five callbacks pushed, as the hook (if
any) left it. -/
theorem construction_returns
    (clientNew : aws.Config → metadata.ClientInfo → request.Handlers → Option client.Client)
    (initClient : Option (client.Client → client.Client)) (p : client.ConfigProvider)
    (cfgs : List (Option aws.Config)) (cfg : aws.Config) (handlers : request.Handlers)
    (endpoint signingRegion : String)
    (hnew : ∀ c i h, clientNew c i h ≠ none)
    (hcfg : (p.ClientConfig ServiceName cfgs).Config ≠ none) :
    let info : String → String → metadata.ClientInfo := fun e r =>
      { ServiceName := "ecs", SigningRegion := r, Endpoint := e, APIVersion := "2014-11-13",
        JSONVersion := "1.1", TargetPrefix := "AmazonEC2ContainerServiceV20141113" }
    let finish : client.Client → ECS := fun built =>
      { Client :=
          (initClient.getD id)
            { built with
              Handlers :=
                { built.Handlers with
                  Sign := ⟨built.Handlers.Sign.list ++ [v4.Sign]⟩
                  Build := ⟨built.Handlers.Build.list ++ [jsonrpc.Build]⟩
                  Unmarshal := ⟨built.Handlers.Unmarshal.list ++ [jsonrpc.Unmarshal]⟩
                  UnmarshalMeta := ⟨built.Handlers.UnmarshalMeta.list ++ [jsonrpc.UnmarshalMeta]⟩
                  UnmarshalError :=
                    ⟨built.Handlers.UnmarshalError.list ++ [jsonrpc.UnmarshalError]⟩ } } }
    let c := p.ClientConfig ServiceName cfgs
    (∃ svc, (NewWith clientNew initClient p cfgs).1 = some svc)
      ∧ (NewWith clientNew initClient p cfgs).1
          = (c.Config.bind
              (fun pcfg => clientNew pcfg (info c.Endpoint c.SigningRegion) c.Handlers)).map finish
      ∧ (∃ svc, (newClientWith clientNew initClient cfg handlers endpoint signingRegion).1
          = some svc)
      ∧ (newClientWith clientNew initClient cfg handlers endpoint signingRegion).1
          = (clientNew cfg (info endpoint signingRegion) handlers).map finish := by
  intro info finish c
  have key : ∀ (cfg : aws.Config) (handlers : request.Handlers) (endpoint signingRegion : String),
      (newClientWith clientNew initClient cfg handlers endpoint signingRegion).1
        = (clientNew cfg (info endpoint signingRegion) handlers).map finish := by
    intro cfg handlers endpoint signingRegion
    simp only [newClientWith, ServiceName, info]
    cases clientNew cfg _ handlers with
    | none => rfl
    | some built =>
      cases initClient <;> simp [finish, request.HandlerList.PushBack]
  have some_of : ∀ (cfg : aws.Config) (handlers : request.Handlers)
      (endpoint signingRegion : String),
      ∃ svc, (newClientWith clientNew initClient cfg handlers endpoint signingRegion).1
        = some svc := by
    intro cfg handlers endpoint signingRegion
    rw [key]
    cases hb : clientNew cfg (info endpoint signingRegion) handlers with
    | none => exact absurd hb (hnew _ _ _)
    | some built => exact ⟨finish built, rfl⟩
  have hNew : (NewWith clientNew initClient p cfgs).1
      = (c.Config.bind
          (fun pcfg => clientNew pcfg (info c.Endpoint c.SigningRegion) c.Handlers)).map finish := by
    show (NewWith clientNew initClient p cfgs).1
      = ((p.ClientConfig ServiceName cfgs).Config.bind _).map finish
    simp only [NewWith]
    cases (p.ClientConfig ServiceName cfgs).Config with
    | none => rfl
    | some pcfg => exact key _ _ _ _
  refine ⟨?_, hNew, some_of _ _ _ _, key _ _ _ _⟩
  cases hc : (p.ClientConfig ServiceName cfgs).Config with
  | none => exact absurd hc hcfg
  | some pcfg =>
    obtain ⟨svc, hsvc⟩ := some_of pcfg c.Handlers c.Endpoint c.SigningRegion
    refine ⟨svc, ?_⟩
    simp only [NewWith, hc]
    exact hsvc

/-- The amended C5 at a constructor that registers loggers, a set hook, and a
provider that answers with a debug configuration and a non-empty handler set. -/
theorem construction_returns_witness :
    (∀ c i h, loggingClientNew c i h ≠ none)
      ∧ (sessionProvider.ClientConfig ServiceName [some emptyConfig, none]).Config ≠ none
      ∧ (∃ svc, (NewWith loggingClientNew (some pushSendHook) sessionProvider
            [some emptyConfig, none]).1 = some svc)
      ∧ (∃ svc, (newClientWith loggingClientNew (some pushSendHook) debugConfig coreHandlers
            "https://ecs.eu-west-1.amazonaws.com" "eu-west-1").1 = some svc)
      ∧ (NewWith loggingClientNew (some pushSendHook) sessionProvider
            [some emptyConfig, none]).1.map (fun svc => svc.Client.Handlers.count)
          = some 14 :=
  have hnew : ∀ c i h, loggingClientNew c i h ≠ none := fun c i h => by
    unfold loggingClientNew
    cases c.LogLevel <;> simp
  have hcfg : (sessionProvider.ClientConfig ServiceName [some emptyConfig, none]).Config ≠ none := by
    decide
  have returns := construction_returns loggingClientNew (some pushSendHook) sessionProvider
    [some emptyConfig, none] debugConfig coreHandlers "https://ecs.eu-west-1.amazonaws.com"
    "eu-west-1" hnew hcfg
  ⟨hnew, hcfg, returns.1, returns.2.2.1, by decide⟩

/-- C6: with `initClient` unset, `newClient` returns the client `client.New`
built with the five callbacks pushed and nothing else done, and calls nothing;
with `initClient` set, `newClient` calls the hook exactly once, on that same
client, whose five lists already end with the registered callbacks, and the
handle it returns embeds the client as the hook left it. -/
theorem newClient_runs_hook_after_registration (hook : client.Client → client.Client)
    (cfg : aws.Config) (handlers : request.Handlers) (endpoint signingRegion : String) :
    let registered : client.Client :=
      { Config := cfg
        ClientInfo :=
          { ServiceName := "ecs", SigningRegion := signingRegion, Endpoint := endpoint,
            APIVersion := "2014-11-13", JSONVersion := "1.1",
            TargetPrefix := "AmazonEC2ContainerServiceV20141113" }
        Handlers :=
          { handlers with
            Sign := ⟨handlers.Sign.list ++ [v4.Sign]⟩
            Build := ⟨handlers.Build.list ++ [jsonrpc.Build]⟩
            Unmarshal := ⟨handlers.Unmarshal.list ++ [jsonrpc.Unmarshal]⟩
            UnmarshalMeta := ⟨handlers.UnmarshalMeta.list ++ [jsonrpc.UnmarshalMeta]⟩
            UnmarshalError := ⟨handlers.UnmarshalError.list ++ [jsonrpc.UnmarshalError]⟩ } }
    newClient none cfg handlers endpoint signingRegion = ({ Client := registered }, [])
      ∧ (newClient (some hook) cfg handlers endpoint signingRegion).2
          = [Call.initClient registered]
      ∧ (newClient (some hook) cfg handlers endpoint signingRegion).2.countP Call.isInitClient = 1
      ∧ (newClient (some hook) cfg handlers endpoint signingRegion).1
          = { Client := hook registered }
      ∧ registered.Handlers.Sign.list.getLast? = some v4.Sign
      ∧ registered.Handlers.Build.list.getLast? = some jsonrpc.Build
      ∧ registered.Handlers.Unmarshal.list.getLast? = some jsonrpc.Unmarshal
      ∧ registered.Handlers.UnmarshalMeta.list.getLast? = some jsonrpc.UnmarshalMeta
      ∧ registered.Handlers.UnmarshalError.list.getLast? = some jsonrpc.UnmarshalError := by
  simp [newClient, client.New, request.HandlerList.PushBack, ServiceName, Call.isInitClient]

/-- C7: with `initRequest` unset, `newRequest` returns exactly the request the
embedded client's `NewRequest` produces for the same operation, params and
data, and calls nothing else; with `initRequest` set, the hook is called exactly
once, on that request, after `NewRequest`, and the request is returned as the
hook left it. -/
theorem newRequest_runs_hook {Operation Value Request : Type} (hook : Request → Request)
    (NewRequest : client.Client → Operation → Value → Value → Request) (c : ECS)
    (op : Operation) (params data : Value) :
    ECS.newRequest none NewRequest c op params data
        = (NewRequest c.Client op params data, [RequestCall.NewRequest c.Client op params data])
      ∧ ECS.newRequest (some hook) NewRequest c op params data
        = (hook (NewRequest c.Client op params data),
            [RequestCall.NewRequest c.Client op params data,
              RequestCall.initRequest (NewRequest c.Client op params data)]) :=
  ⟨rfl, rfl⟩

/-- C9, as stated, fails: at a constructor that registers loggers when the
configuration sets a log level, the `Send` list of the returned client is not
the input's, although `newClient` itself never touches it. -/
theorem newClient_send_not_input :
    (newClientWith loggingClientNew none debugConfig coreHandlers "" "").1.map
        (fun svc => svc.Client.Handlers.Send)
      = some
          { list :=
              [{ Name := "client.logRequest" }, { Name := "corehandlers.SendHandler" },
                { Name := "client.logResponse" }] }
      ∧ (newClientWith loggingClientNew none debugConfig coreHandlers "" "").1.map
          (fun svc => svc.Client.Handlers.Send)
        ≠ some coreHandlers.Send := by
  decide

/-- C9, amended: whatever `client.New` does, with the `initClient` hook unset
`newClient` changes nothing of the client that `client.New` built but the five
lists it appends to: the configuration, the metadata and every other list of the
handler chain (Validate, Send, ValidateResponse, Retry, AfterRetry and any
further stage) of the returned client are those of the built client. -/
theorem newClientWith_frame
    (clientNew : aws.Config → metadata.ClientInfo → request.Handlers → Option client.Client)
    (cfg : aws.Config) (handlers : request.Handlers) (endpoint signingRegion : String) :
    let built := clientNew cfg
      { ServiceName := "ecs", SigningRegion := signingRegion, Endpoint := endpoint,
        APIVersion := "2014-11-13", JSONVersion := "1.1",
        TargetPrefix := "AmazonEC2ContainerServiceV20141113" }
      handlers
    let out := (newClientWith clientNew none cfg handlers endpoint signingRegion).1
    out.map (fun svc => svc.Client.Config) = built.map (fun b => b.Config)
      ∧ out.map (fun svc => svc.Client.ClientInfo) = built.map (fun b => b.ClientInfo)
      ∧ out.map (fun svc => svc.Client.Handlers.Validate) = built.map (fun b => b.Handlers.Validate)
      ∧ out.map (fun svc => svc.Client.Handlers.Send) = built.map (fun b => b.Handlers.Send)
      ∧ out.map (fun svc => svc.Client.Handlers.ValidateResponse)
          = built.map (fun b => b.Handlers.ValidateResponse)
      ∧ out.map (fun svc => svc.Client.Handlers.Retry) = built.map (fun b => b.Handlers.Retry)
      ∧ out.map (fun svc => svc.Client.Handlers.AfterRetry)
          = built.map (fun b => b.Handlers.AfterRetry)
      ∧ out.map (fun svc => svc.Client.Handlers.Further)
          = built.map (fun b => b.Handlers.Further) := by
  simp only [newClientWith, ServiceName]
  cases clientNew cfg _ handlers with
  | none => simp
  | some built => simp

/-- C10: with the `initClient` hook unset, feeding the handler chain of a client
built by `newClient` to a second `newClient` call gives a client whose Sign,
Build, Unmarshal, UnmarshalMeta and UnmarshalError lists are the original input
lists followed by two copies of the stage's service callback, hence two elements
longer. -/
theorem newClient_twice_registers_twice (cfg cfg2 : aws.Config) (handlers : request.Handlers)
    (endpoint signingRegion endpoint2 signingRegion2 : String) :
    let first := (newClient none cfg handlers endpoint signingRegion).1.Client.Handlers
    let h := (newClient none cfg2 first endpoint2 signingRegion2).1.Client.Handlers
    (h.Sign.list = handlers.Sign.list ++ [v4.Sign, v4.Sign]
      ∧ h.Build.list = handlers.Build.list ++ [jsonrpc.Build, jsonrpc.Build]
      ∧ h.Unmarshal.list = handlers.Unmarshal.list ++ [jsonrpc.Unmarshal, jsonrpc.Unmarshal]
      ∧ h.UnmarshalMeta.list
          = handlers.UnmarshalMeta.list ++ [jsonrpc.UnmarshalMeta, jsonrpc.UnmarshalMeta]
      ∧ h.UnmarshalError.list
          = handlers.UnmarshalError.list ++ [jsonrpc.UnmarshalError, jsonrpc.UnmarshalError])
    ∧ (h.Sign.Len = handlers.Sign.Len + 2 ∧ h.Build.Len = handlers.Build.Len + 2
      ∧ h.Unmarshal.Len = handlers.Unmarshal.Len + 2
      ∧ h.UnmarshalMeta.Len = handlers.UnmarshalMeta.Len + 2
      ∧ h.UnmarshalError.Len = handlers.UnmarshalError.Len + 2) := by
  simp [newClient, client.New, request.HandlerList.PushBack, request.HandlerList.Len]

end ecs
